import Mathlib

/-!
Verification of the ferret Doom-engine core: shallow embedding of the
collision/physics engine (`src/doom/physics.rs`), the door/switch mechanism
state machine (`src/doom/door.rs`) and the entity spawner
(`src/doom/map/mod.rs`), with theorems settling the frozen claims.

Geometry is carried out over the rationals. The repository's `geometry`
module (Interval, Line2, AABB2, AABB3) is not part of the provided sources;
its operations are modelled from the specification where used, and each such
definition is marked accordingly. Single-precision floats are modelled as
exact rationals except where a claim is specifically about IEEE behaviour
(division by zero), for which an explicit extended-value type is used.
-/

namespace Ferret

/-- 2D vector with rational components, embedding `nalgebra::Vector2<f32>`. -/
structure Vec2 where
  x : ℚ
  y : ℚ
deriving DecidableEq

/-- Componentwise sum of two 2D vectors. -/
def Vec2.add (a b : Vec2) : Vec2 := ⟨a.x + b.x, a.y + b.y⟩

/-- Componentwise difference of two 2D vectors. -/
def Vec2.sub (a b : Vec2) : Vec2 := ⟨a.x - b.x, a.y - b.y⟩

/-- Componentwise negation of a 2D vector. -/
def Vec2.neg (a : Vec2) : Vec2 := ⟨-a.x, -a.y⟩

/-- Dot product of two 2D vectors. -/
def Vec2.dot (a b : Vec2) : ℚ := a.x * b.x + a.y * b.y

/-- 2D cross product (z component of the 3D cross product). -/
def Vec2.cross (a b : Vec2) : ℚ := a.x * b.y - a.y * b.x

/-- 3D vector with rational components, embedding `nalgebra::Vector3<f32>`. -/
structure Vec3 where
  x : ℚ
  y : ℚ
  z : ℚ
deriving DecidableEq

/-- Componentwise sum of two 3D vectors. -/
def Vec3.add (a b : Vec3) : Vec3 := ⟨a.x + b.x, a.y + b.y, a.z + b.z⟩

/-- Componentwise difference of two 3D vectors. -/
def Vec3.sub (a b : Vec3) : Vec3 := ⟨a.x - b.x, a.y - b.y, a.z - b.z⟩

/-- Componentwise negation of a 3D vector. -/
def Vec3.neg (a : Vec3) : Vec3 := ⟨-a.x, -a.y, -a.z⟩

/-- Dot product of two 3D vectors. -/
def Vec3.dot (a b : Vec3) : ℚ := a.x * b.x + a.y * b.y + a.z * b.z

/-- Scalar multiple of a 3D vector. -/
def Vec3.smul (a : Vec3) (c : ℚ) : Vec3 := ⟨a.x * c, a.y * c, a.z * c⟩

/-- The zero 3D vector (`nalgebra::zero`). -/
def Vec3.zero : Vec3 := ⟨0, 0, 0⟩

/-- Modelled from the spec: the geometry module's `Interval`, a closed
interval of `f32` given by its two endpoints (used for sector floor/ceiling
height pairs and for bounding-box extents). -/
structure Interval where
  min : ℚ
  max : ℚ
deriving DecidableEq

/-- Modelled from the spec: interval containment, `a.is_inside(b)` holds when
`a` lies entirely within `b`. -/
def Interval.is_inside (a b : Interval) : Bool :=
  decide (b.min ≤ a.min) && decide (a.max ≤ b.max)

/-- Modelled from the spec: intersection of two intervals (overlap of the
front and back sectors' open intervals in the two-sided linedef test). -/
def Interval.intersection (a b : Interval) : Interval :=
  ⟨Max.max a.min b.min, Min.min a.max b.max⟩

/-- Modelled from the spec: two intervals overlap when neither lies strictly
beyond the other. -/
def Interval.overlaps (a b : Interval) : Bool :=
  decide (a.min ≤ b.max) && decide (b.min ≤ a.max)

/-- Modelled from the spec: union (convex hull) of two intervals. -/
def Interval.union (a b : Interval) : Interval :=
  ⟨Min.min a.min b.min, Max.max a.max b.max⟩

/-- Modelled from the spec: shift an interval by an offset. -/
def Interval.offset (a : Interval) (c : ℚ) : Interval := ⟨a.min + c, a.max + c⟩

/-- Modelled from the spec: a 2D line in point-direction form, `Line2`. -/
structure Line2 where
  point : Vec2
  dir : Vec2
deriving DecidableEq

/-- Modelled from the spec: parametric line intersection of two `Line2`
values. Returns the pair of parameters `(t, u)` with
`a.point + t * a.dir = b.point + u * b.dir`, or nothing when the lines are
parallel. -/
def Line2.intersect (a b : Line2) : Option (ℚ × ℚ) :=
  let denom := Vec2.cross a.dir b.dir
  if denom = 0 then none
  else
    some (Vec2.cross (b.point.sub a.point) b.dir / denom,
      Vec2.cross (b.point.sub a.point) a.dir / denom)

/-- Modelled from the spec: a 2D axis-aligned bounding box as a pair of
per-axis intervals. -/
structure AABB2 where
  x : Interval
  y : Interval
deriving DecidableEq

/-- Modelled from the spec: a 3D axis-aligned bounding box as a triple of
per-axis intervals. -/
structure AABB3 where
  x : Interval
  y : Interval
  z : Interval
deriving DecidableEq

/-- Modelled from the spec: plan-view projection `AABB2::from(&AABB3)`. -/
def AABB2.of3 (b : AABB3) : AABB2 := ⟨b.x, b.y⟩

/-- Modelled from the spec: shift a 2D box by a vector. -/
def AABB2.offset (b : AABB2) (v : Vec2) : AABB2 := ⟨b.x.offset v.x, b.y.offset v.y⟩

/-- Modelled from the spec: convex hull of two 2D boxes. -/
def AABB2.union (a b : AABB2) : AABB2 := ⟨a.x.union b.x, a.y.union b.y⟩

/-- Modelled from the spec: 2D boxes overlap when they overlap on both axes. -/
def AABB2.overlaps (a b : AABB2) : Bool := a.x.overlaps b.x && a.y.overlaps b.y

/-- Modelled from the spec: shift a 3D box by a vector. -/
def AABB3.offset (b : AABB3) (v : Vec3) : AABB3 :=
  ⟨b.x.offset v.x, b.y.offset v.y, b.z.offset v.z⟩

/-- `SolidMask` bitset from `physics.rs`: which collision categories a
collidable blocks (`NON_MONSTER` and `MONSTER` bits). -/
structure SolidMask where
  non_monster : Bool
  monster : Bool
deriving DecidableEq

/-- `SolidMask::all()`: every category bit set. -/
def SolidMask.all : SolidMask := ⟨true, true⟩

/-- `SolidMask::empty()`: no category bit set. -/
def SolidMask.empty : SolidMask := ⟨false, false⟩

/-- `bitflags` intersection test: the two masks share at least one set bit. -/
def SolidMask.intersects (a b : SolidMask) : Bool :=
  (a.non_monster && b.non_monster) || (a.monster && b.monster)

/-- The `Intersect` result record of the move tracer in `physics.rs`:
time-of-impact fraction, collision normal, and the solid-mask of the thing
that was hit. -/
structure Intersect where
  fraction : ℚ
  normal : Vec3
  solid_mask : SolidMask
deriving DecidableEq

/-- Front or back sidedef of a linedef; only the owning sector index is
relevant to the collision code. -/
structure Sidedef where
  sector_index : ℕ
deriving DecidableEq

/-- The fields of `Linedef` (from `map/mod.rs`) used by
`MoveTracer::trace_linedef`: the 2D segment, its unit normal, its bounding
box, its collision solid-mask, and the optional front/back sidedefs. -/
structure Linedef where
  line : Line2
  normal : Vec2
  bbox : AABB2
  solid_mask : SolidMask
  sidedefs : Option Sidedef × Option Sidedef
deriving DecidableEq

/-- Corner `i` of a 2D box, in the order the source lists
`entity_bbox_corners`: (min,min), (min,max), (max,max), (max,min). -/
def AABB2.corner (b : AABB2) : ℕ → Vec2
  | 0 => ⟨b.x.min, b.y.min⟩
  | 1 => ⟨b.x.min, b.y.max⟩
  | 2 => ⟨b.x.max, b.y.max⟩
  | _ => ⟨b.x.max, b.y.min⟩

/-- The `BBOX_NORMALS` table of `physics.rs`: outward normal of box edge
`i` (right, up, left, down). -/
def bboxNormal : ℕ → Vec3
  | 0 => ⟨1, 0, 0⟩
  | 1 => ⟨0, 1, 0⟩
  | 2 => ⟨-1, 0, 0⟩
  | _ => ⟨0, -1, 0⟩

/-- Best fraction so far in the narrow-phase loop:
`ret.as_ref().map_or(1.0, |x| x.fraction)`. -/
def bestFraction (r : Option Intersect) : ℚ :=
  (r.map Intersect.fraction).getD 1

/-- One narrow-phase test of `trace_linedef`: a candidate is the outcome of a
`Line2::intersect` call (parameter along the motion, parameter along the
other segment) together with the normal the source would record for it. The
update keeps the candidate only under the source's conditions: motion
fraction nonnegative, strictly better than the best so far, and the other
fraction within `[0, 1]`. Every intersection recorded here carries
`SolidMask::all()`, as in the source. -/
def stepCandidate (r : Option Intersect) (c : Option (ℚ × ℚ) × Vec3) :
    Option Intersect :=
  match c.1 with
  | none => r
  | some (fraction, other) =>
    if 0 ≤ fraction ∧ fraction < bestFraction r ∧ 0 ≤ other ∧ other ≤ 1 then
      some ⟨fraction, c.2, SolidMask.all⟩
    else r

/-- The three candidates generated by iteration `i` of the narrow-phase loop
of `trace_linedef`: the box corner swept against the linedef segment, then
the two linedef endpoints swept backwards against box edge `i`. The corner
candidate's normal is the linedef normal, flipped when the motion heads into
it from the left side; the edge candidates use the negated box-edge normal. -/
def candidatesAt (ld : Linedef) (b : AABB2) (ms2 : Vec2) (i : ℕ) :
    List (Option (ℚ × ℚ) × Vec3) :=
  let ci := b.corner i
  let edge : Line2 := ⟨ci, (b.corner ((i + 1) % 4)).sub ci⟩
  let ln : Vec3 :=
    if Vec2.dot ms2 ld.normal > 0 then ⟨-ld.normal.x, -ld.normal.y, 0⟩
    else ⟨ld.normal.x, ld.normal.y, 0⟩
  [(Line2.intersect ⟨ci, ms2⟩ ld.line, ln),
    (Line2.intersect ⟨ld.line.point, ms2.neg⟩ edge, (bboxNormal i).neg),
    (Line2.intersect ⟨ld.line.point.add ld.line.dir, ms2.neg⟩ edge, (bboxNormal i).neg)]

/-- All twelve narrow-phase candidates of `trace_linedef`, in source order
(for each `i` in 0..4: the corner test, then both endpoint tests). -/
def linedefCandidates (ld : Linedef) (b : AABB2) (ms2 : Vec2) :
    List (Option (ℚ × ℚ) × Vec3) :=
  candidatesAt ld b ms2 0 ++ candidatesAt ld b ms2 1 ++
    candidatesAt ld b ms2 2 ++ candidatesAt ld b ms2 3

/-- `MoveTracer::trace_linedef` from `physics.rs`: broad-phase reject via
bounding-box overlap; narrow-phase fold over the twelve candidates; finally,
when the linedef has both sidedefs, the intersection's solid-mask is
replaced by the linedef's own mask when the mover's z-extent at the
time-of-impact position lies inside the intersection of the front and back
sectors' live height intervals. `sectors` is the `MapDynamic` sector list,
carrying each sector's live floor/ceiling interval. -/
def trace_linedef (sectors : List Interval) (ld : Linedef) (entity_bbox : AABB3)
    (move_step : Vec3) : Option Intersect :=
  let ms2 : Vec2 := ⟨move_step.x, move_step.y⟩
  let eb2 := AABB2.of3 entity_bbox
  let mb2 := eb2.union (eb2.offset ms2)
  if mb2.overlaps ld.bbox then
    match (linedefCandidates ld eb2 ms2).foldl stepCandidate none with
    | none => none
    | some i =>
      match ld.sidedefs with
      | (some front, some back) =>
        let fi := sectors.getD front.sector_index ⟨0, 0⟩
        let bi := sectors.getD back.sector_index ⟨0, 0⟩
        let endBbox := entity_bbox.offset (move_step.smul i.fraction)
        if endBbox.z.is_inside (fi.intersection bi) then
          some { i with solid_mask := ld.solid_mask }
        else some i
      | _ => some i
  else none

/-- The collision response of `PhysicsSystem::run_now`:
`velocity -= normal * (velocity.dot(normal)) * 1.01`. -/
def projectVelocity (velocity normal : Vec3) : Vec3 :=
  velocity.sub (normal.smul (velocity.dot normal * (101 / 100)))

/-- An IEEE-754 `f32` value for the cases the slab test can produce: NaN,
the two infinities, or a finite value (carried exactly as a rational).
Signed zeros are not distinguished; they play no role in the slab test. -/
inductive EF where
  | nan : EF
  | pinf : EF
  | ninf : EF
  | fin : ℚ → EF
deriving DecidableEq

/-- IEEE-754 subtraction on extended values: NaN propagates, same-signed
infinities cancel to NaN, otherwise infinities dominate. -/
def EF.sub : EF → EF → EF
  | .nan, _ => .nan
  | _, .nan => .nan
  | .pinf, .pinf => .nan
  | .pinf, _ => .pinf
  | .ninf, .ninf => .nan
  | .ninf, _ => .ninf
  | .fin _, .pinf => .ninf
  | .fin _, .ninf => .pinf
  | .fin a, .fin b => .fin (a - b)

/-- IEEE-754 division on extended values: NaN propagates, `0 / 0` and
`inf / inf` are NaN, a nonzero finite value divided by zero is a signed
infinity, a finite value divided by infinity is zero. -/
def EF.div : EF → EF → EF
  | .nan, _ => .nan
  | _, .nan => .nan
  | .pinf, .pinf => .nan
  | .pinf, .ninf => .nan
  | .ninf, .pinf => .nan
  | .ninf, .ninf => .nan
  | .pinf, .fin b => if 0 ≤ b then .pinf else .ninf
  | .ninf, .fin b => if 0 ≤ b then .ninf else .pinf
  | .fin _, .pinf => .fin 0
  | .fin _, .ninf => .fin 0
  | .fin a, .fin b =>
    if b = 0 then (if a = 0 then .nan else if 0 < a then .pinf else .ninf)
    else .fin (a / b)

/-- IEEE-754 strict greater-than on extended values: any comparison with NaN
is false. -/
def EF.gt : EF → EF → Bool
  | .nan, _ => false
  | _, .nan => false
  | .pinf, .pinf => false
  | .pinf, _ => true
  | .ninf, _ => false
  | .fin _, .pinf => false
  | .fin _, .ninf => true
  | .fin a, .fin b => decide (b < a)

/-- An interval with IEEE-754 extended endpoints, for the slab test of
`trace_aabb`. -/
structure EInterval where
  min : EF
  max : EF
deriving DecidableEq

/-- Modelled from the spec: `Interval::new(lo, hi).normalize()` orders the
two endpoints; under IEEE comparison a NaN endpoint never triggers the
swap. -/
def EInterval.normalize (i : EInterval) : EInterval :=
  if EF.gt i.min i.max then ⟨i.max, i.min⟩ else i

/-- One axis of the swept-AABB slab test of `MoveTracer::trace_aabb`, with
`f32` arithmetic made explicit:
`Interval::new((other.min - entity.max) / move_step, (other.max - entity.min) / move_step).normalize()`.
The division is performed unconditionally; the source carries a TODO
admitting that `move_step[i] == 0.0` is unhandled. -/
def trace_aabb_axis (entityAxis otherAxis : Interval) (move_step : ℚ) :
    EInterval :=
  EInterval.normalize
    ⟨((EF.fin otherAxis.min).sub (EF.fin entityAxis.max)).div (EF.fin move_step),
      ((EF.fin otherAxis.max).sub (EF.fin entityAxis.min)).div (EF.fin move_step)⟩

/-- `DoorState` from `door.rs`. -/
inductive DoorState where
  | Closed
  | Opening
  | Open
  | Closing
deriving DecidableEq

/-- `DoorActive` component from `door.rs` (sound handles omitted; the sound
outputs of the state machine are tracked separately). Times are in seconds;
`Duration` is nonnegative, which matters only for `checked_sub`. -/
structure DoorActive where
  open_height : ℚ
  close_height : ℚ
  state : DoorState
  speed : ℚ
  time_left : ℚ
  wait_time : ℚ
deriving DecidableEq

/-- `Duration::checked_sub`: `none` when the subtrahend exceeds the value. -/
def checkedSub (a b : ℚ) : Option ℚ :=
  if b ≤ a then some (a - b) else none

/-- Sound triggers the door state machine can emit. -/
inductive DoorSound where
  | openSound
  | closeSound
deriving DecidableEq

/-- Result of one per-tick transition of a door: the component afterwards
(`none` once the entity is pushed to `done` and the component removed), the
sector's live ceiling height afterwards, and the sounds pushed. -/
structure DoorTickOut where
  door : Option DoorActive
  ceiling : ℚ
  sounds : List DoorSound
deriving DecidableEq

/-- The per-tick transition pass of `DoorUpdateSystem::run_now` for one
door (`match door_active.state`): `Closed` immediately becomes `Opening`
with the open sound; `Opening` raises the ceiling by `speed * dt`, clamping
at `open_height` and switching to `Open`; `Open` counts down `time_left`,
switching to `Closing` with the close sound on underflow; `Closing` reverts
to `Closed` when the downward trace hits something, otherwise commits the
lowered ceiling and removes the component once the height passes below
`close_height`. `blocked` stands for `tracer.trace(...).collision.is_some()`,
whose `SectorTracer` implementation lives outside the provided sources. -/
def doorTick (blocked : Bool) (dt : ℚ) (d : DoorActive) (ceiling : ℚ) :
    DoorTickOut :=
  match d.state with
  | .Closed => ⟨some { d with state := .Opening }, ceiling, [.openSound]⟩
  | .Opening =>
    let c := ceiling + d.speed * dt
    if c > d.open_height then
      ⟨some { d with state := .Open, time_left := d.wait_time },
        d.open_height, []⟩
    else ⟨some d, c, []⟩
  | .Open =>
    match checkedSub d.time_left dt with
    | some t => ⟨some { d with time_left := t }, ceiling, []⟩
    | none => ⟨some { d with state := .Closing }, ceiling, [.closeSound]⟩
  | .Closing =>
    if blocked then ⟨some { d with state := .Closed }, ceiling, []⟩
    else
      let c := ceiling + (-d.speed) * dt
      if c < d.close_height then ⟨none, c, []⟩
      else ⟨some d, c, []⟩

/-- Iterate `doorTick` for a number of ticks; the state collapses to `none`
once the component has been removed. -/
def doorTicks (blocked : Bool) (dt : ℚ) :
    ℕ → Option (DoorActive × ℚ) → Option (DoorActive × ℚ)
  | 0, s => s
  | _ + 1, none => none
  | n + 1, some (d, c) =>
    doorTicks blocked dt n
      (match doorTick blocked dt d c with
      | ⟨some d2, c2, _⟩ => some (d2, c2)
      | ⟨none, _, _⟩ => none)

/-- The `DoorUse` action data from `door.rs` (sound handles omitted). -/
structure DoorUse where
  speed : ℚ
  wait_time : ℚ
deriving DecidableEq

/-- `Iterator::min_by` over the neighbour ceiling heights: the minimum of a
list, or `none` for an empty list. -/
def listMin : List ℚ → Option ℚ
  | [] => none
  | x :: xs => some (xs.foldl Min.min x)

/-- Door creation on a use event with no existing `DoorActive`
(`door.rs`, the `else` branch of the `DoorUse` arm): `open_height` is the
minimum of the neighbour sectors' live ceiling heights minus 4,
`close_height` the sector's own live floor height, initial state `Closed`;
with no neighbours an error is logged and no component is inserted. -/
def doorUseCreate (du : DoorUse) (neighbourCeilings : List ℚ) (floor : ℚ) :
    Option DoorActive :=
  match listMin neighbourCeilings with
  | none => none
  | some m =>
    some ⟨m - 4, floor, .Closed, du.speed, du.wait_time, du.wait_time⟩

/-- Handling one `DoorUse` use event for a sector (`door.rs` lines 87-131):
with an active door, `Closing` re-opens (state set back to `Closed`),
`Opening`/`Open` force-close early (state `Open`, zero time left), and
observing `Closed` hits `unreachable!()` — modelled as `none` (panic).
Without an active door, a new one is created per `doorUseCreate`. -/
def handleDoorUse (du : DoorUse) (neighbourCeilings : List ℚ) (floor : ℚ) :
    Option DoorActive → Option (Option DoorActive)
  | some da =>
    match da.state with
    | .Closing => some (some { da with state := .Closed })
    | .Opening => some (some { da with state := .Open, time_left := 0 })
    | .Open => some (some { da with state := .Open, time_left := 0 })
    | .Closed => none
  | none => some (doorUseCreate du neighbourCeilings floor)

/-- Processing a queue of `DoorUse` events targeting the same sector within
one tick, as the event loop of `DoorUpdateSystem::run_now` does before the
per-tick transition pass runs; `none` when some event panicked. -/
def processDoorUses (du : DoorUse) (neighbourCeilings : List ℚ) (floor : ℚ) :
    ℕ → Option DoorActive → Option (Option DoorActive)
  | 0, d => some d
  | n + 1, d =>
    match handleDoorUse du neighbourCeilings floor d with
    | none => none
    | some d2 => processDoorUses du neighbourCeilings floor n d2

/-- `SwitchActive` component from `door.rs`: the saved texture to restore
(texture handles as numeric identifiers) and the remaining time. The
`texture_slot` and sound handle are omitted; a single texture slot is
modelled. -/
structure SwitchActive where
  texture : ℕ
  time_left : ℚ
deriving DecidableEq

/-- `DoorSwitchUse` action data from `door.rs` (sound handles omitted). -/
structure DoorSwitchUse where
  switch_time : ℚ
  speed : ℚ
  wait_time : ℚ
deriving DecidableEq

/-- Static sector data used by the switch-use branch: the sector's tag and
its neighbour sector indices. -/
structure SectorData where
  sector_tag : ℕ
  neighbours : List ℕ
deriving DecidableEq

/-- The world state the `DoorSwitchUse` branch of
`DoorUpdateSystem::run_now` reads and writes: the static sectors, the live
sector height intervals (`MapDynamic`), the per-sector `DoorActive`
components, the `SwitchActive` component on the used linedef entity, the
live sidedef texture of that linedef, and the count of queued sounds. -/
structure SwitchWorld where
  sectors : List SectorData
  intervals : List Interval
  doors : List (Option DoorActive)
  switch_active : Option SwitchActive
  texture : ℕ
  sounds : ℕ
deriving DecidableEq

/-- Live ceiling height of sector `i` (`map_dynamic.sectors[i].interval.max`). -/
def liveCeiling (intervals : List Interval) (i : ℕ) : ℚ :=
  (intervals.getD i ⟨0, 0⟩).max

/-- Door activation for one tagged sector in the switch-use loop: skip when a
door is already active (as the source's `continue` does), otherwise mark the
switch as used and insert the door built by `doorUseCreate` from the
sector's neighbour ceilings and its own floor. -/
def activateSector (du : DoorSwitchUse) (w : SwitchWorld) (i : ℕ)
    (acc : List (Option DoorActive) × Bool) : List (Option DoorActive) × Bool :=
  let sector := w.sectors.getD i ⟨0, []⟩
  match w.doors.getD i none with
  | some _ => acc
  | none =>
    let created := doorUseCreate ⟨du.speed, du.wait_time⟩
      (sector.neighbours.map (liveCeiling w.intervals))
      (w.intervals.getD i ⟨0, 0⟩).min
    (acc.1.set i created, true)

/-- The `DoorSwitchUse` branch of `DoorUpdateSystem::run_now` (`door.rs`
lines 136-239): when a `SwitchActive` component is already present on the
linedef entity the event is skipped entirely (`continue`); otherwise every
sector whose tag matches the linedef's tag gets a door activated (sectors
with an active door are skipped), and if any door was activated the switch
texture is flipped through the `switches` table, a sound is queued, and a
`SwitchActive` component holding the old texture is inserted. -/
def handleSwitchUse (du : DoorSwitchUse) (linedefTag : ℕ)
    (switches : ℕ → Option ℕ) (w : SwitchWorld) : SwitchWorld :=
  if w.switch_active.isSome then w
  else
    let tagged := (List.range w.sectors.length).filter
      (fun i => (w.sectors.getD i ⟨0, []⟩).sector_tag = linedefTag)
    let res := tagged.foldl (fun acc i => activateSector du w i acc)
      (w.doors, false)
    if res.2 then
      match switches w.texture with
      | some newTexture =>
        { w with
          doors := res.1
          texture := newTexture
          switch_active := some ⟨w.texture, du.switch_time⟩
          sounds := w.sounds + 1 }
      | none => { w with doors := res.1 }
    else { w with doors := res.1 }

/-- A thing to be spawned (`Thing` in `map/mod.rs`); only the doomednum
matters to the iteration policy. -/
structure Thing where
  doomednum : ℕ
deriving DecidableEq

/-- `spawn_things` from `map/mod.rs`, observed through which things get
spawned: each thing's doomednum is looked up in the entity-kind registry,
and a missing doomednum makes the whole function return that error
immediately (the source's `ok_or(...)?`), so nothing after it is spawned.
Returns the doomednums spawned (in order) and the doomednum that failed,
if any. -/
def spawn_things (registry : ℕ → Bool) : List Thing → List ℕ × Option ℕ
  | [] => ([], none)
  | t :: rest =>
    if registry t.doomednum then
      let res := spawn_things registry rest
      (t.doomednum :: res.1, res.2)
    else ([], some t.doomednum)

/-- `SpawnOnCeiling` marker component (`components.rs`, used by
`spawn_things`): offset below the ceiling. -/
structure SpawnOnCeiling where
  offset : ℚ
deriving DecidableEq

/-- The z-placement step of `spawn_things` (`map/mod.rs` lines 254-266):
with an occupied `SpawnOnCeiling` entry, z is the owning sector's ceiling
height minus the marker's offset and the entry is removed (`entry.remove()`);
otherwise z is the sector's floor height. Returns the resolved z and the
marker component remaining on the entity. -/
def resolveSpawnZ (sector : Interval) (marker : Option SpawnOnCeiling) :
    ℚ × Option SpawnOnCeiling :=
  match marker with
  | some m => (sector.max - m.offset, none)
  | none => (sector.min, none)

/-- The per-entity movement loop of `PhysicsSystem::run_now`, with the move
tracer abstracted as a function of the entity's current position and move
step. Each iteration computes `move_step = velocity * time_left` where
`time_left` is the full tick delta (never reduced); a blocking intersection
only deflects the velocity (`projectVelocity`), zeroing it and stopping when
the deflected velocity opposes the original; only an iteration with no
intersection advances the position, by the full step. -/
def physicsLoop (tracer : Vec3 → Vec3 → Option Intersect) (dt : ℚ)
    (origVelocity : Vec3) : ℕ → Vec3 → Vec3 → Vec3 × Vec3
  | 0, pos, vel => (pos, vel)
  | n + 1, pos, vel =>
    let move_step := vel.smul dt
    match tracer pos move_step with
    | some intersect =>
      let nv := projectVelocity vel intersect.normal
      if nv.dot origVelocity ≤ 0 then (pos, Vec3.zero)
      else physicsLoop tracer dt origVelocity n pos nv
    | none => (pos.add move_step, vel)

/-- One physics tick for one entity (`PhysicsSystem::run_now`): skip when the
velocity is exactly zero, otherwise run the movement loop for up to 4
iterations. -/
def physicsTick (tracer : Vec3 → Vec3 → Option Intersect) (dt : ℚ)
    (pos vel : Vec3) : Vec3 × Vec3 :=
  if vel = Vec3.zero then (pos, vel)
  else physicsLoop tracer dt vel 4 pos vel

/-- Every intersection produced by the narrow-phase fold of `trace_linedef`
carries `SolidMask::all()`: the fold starts from a value satisfying the
invariant and `stepCandidate` only ever constructs intersections with the
full mask. -/
theorem foldl_stepCandidate_mask (l : List (Option (ℚ × ℚ) × Vec3))
    (r : Option Intersect)
    (hr : ∀ j, r = some j → j.solid_mask = SolidMask.all) :
    ∀ j, l.foldl stepCandidate r = some j → j.solid_mask = SolidMask.all := by
  induction l generalizing r with
  | nil => exact hr
  | cons head rest ih =>
    intro j hj
    refine ih (stepCandidate r head) ?_ j hj
    intro k hk
    simp only [stepCandidate] at hk
    split at hk
    · exact hr k hk
    · split at hk
      · cases hk
        rfl
      · exact hr k hk

/-- Claim C1 (counterexample): a mover of half-width 1 and height 2 standing
at z ∈ [0, 2] steps 4 units toward a two-sided linedef whose front sector
spans [0, 10] and back sector [5, 10] (overlap [5, 10]). The trace finds the
impact at fraction 3/4, the mover's z-extent [0, 2] is not inside the
overlap, and the returned solid-mask is `SolidMask::all()` — it blocks every
mover category (the linedef's own mask is empty) — contradicting the claim
that the linedef is non-blocking at heights outside the overlap. -/
theorem c1_counterexample :
    trace_linedef [⟨0, 10⟩, ⟨5, 10⟩]
      ⟨⟨⟨4, -10⟩, ⟨0, 20⟩⟩, ⟨-1, 0⟩, ⟨⟨4, 4⟩, ⟨-10, 10⟩⟩, SolidMask.empty,
        (some ⟨0⟩, some ⟨1⟩)⟩
      ⟨⟨-1, 1⟩, ⟨-1, 1⟩, ⟨0, 2⟩⟩ ⟨4, 0, 0⟩ =
      some ⟨3 / 4, ⟨-1, 0, 0⟩, SolidMask.all⟩
    ∧ Interval.is_inside ⟨0, 2⟩ (Interval.intersection ⟨0, 10⟩ ⟨5, 10⟩) = false
    ∧ SolidMask.intersects ⟨true, false⟩ SolidMask.all = true := by
  refine ⟨?_, by norm_num [Interval.is_inside, Interval.intersection], rfl⟩
  norm_num [trace_linedef, linedefCandidates, candidatesAt, stepCandidate,
    bestFraction, Line2.intersect, Vec2.cross, Vec2.dot, Vec2.sub, Vec2.add,
    Vec2.neg, AABB2.of3, AABB2.union, AABB2.overlaps, AABB2.offset,
    AABB2.corner, Interval.union, Interval.overlaps, Interval.offset,
    Interval.is_inside, Interval.intersection, AABB3.offset, Vec3.smul,
    Vec3.neg, bboxNormal, SolidMask.all, SolidMask.empty]

/-- Claim C1 (amended): for every trace against a two-sided linedef that
yields an intersection, the intersection's solid-mask equals the linedef's
own solid-mask exactly when the mover's z-extent at the time-of-impact
position lies within the overlap of the front and back sectors' live
intervals (the open-doorway case: passable subject to the linedef's own
mask), and remains `SolidMask::all()` — blocking every category — otherwise. -/
theorem c1_two_sided_mask (sectors : List Interval) (ld : Linedef)
    (bb : AABB3) (ms : Vec3) (i : Intersect) (front back : Sidedef)
    (hsd : ld.sidedefs = (some front, some back))
    (h : trace_linedef sectors ld bb ms = some i) :
    i.solid_mask =
      if (AABB3.offset bb (ms.smul i.fraction)).z.is_inside
          ((sectors.getD front.sector_index ⟨0, 0⟩).intersection
            (sectors.getD back.sector_index ⟨0, 0⟩)) = true
      then ld.solid_mask else SolidMask.all := by
  simp only [trace_linedef] at h
  split at h
  · rcases hraw : List.foldl stepCandidate none
        (linedefCandidates ld (AABB2.of3 bb) ⟨ms.x, ms.y⟩) with _ | r
    · rw [hraw] at h
      cases h
    · rw [hraw] at h
      have hmask : r.solid_mask = SolidMask.all := by
        refine foldl_stepCandidate_mask _ none ?_ r hraw
        intro j hj
        cases hj
      simp only [hsd] at h
      by_cases hc : (AABB3.offset bb (ms.smul r.fraction)).z.is_inside
          ((sectors.getD front.sector_index ⟨0, 0⟩).intersection
            (sectors.getD back.sector_index ⟨0, 0⟩)) = true
      · rw [if_pos hc] at h
        cases h
        show ld.solid_mask =
          if (AABB3.offset bb (ms.smul r.fraction)).z.is_inside
              ((sectors.getD front.sector_index ⟨0, 0⟩).intersection
                (sectors.getD back.sector_index ⟨0, 0⟩)) = true
          then ld.solid_mask else SolidMask.all
        rw [if_pos hc]
      · rw [if_neg hc] at h
        cases h
        rw [if_neg hc]
        exact hmask
  · cases h

/-- Witness for C1: the amended mask theorem applied to the counterexample
geometry with the mover lifted to z ∈ [6, 8], inside the overlap [5, 10]:
the returned mask is the linedef's own (empty) mask. -/
theorem c1_two_sided_mask_witness :
    (Intersect.mk (3 / 4) ⟨-1, 0, 0⟩ SolidMask.empty).solid_mask =
      if (AABB3.offset ⟨⟨-1, 1⟩, ⟨-1, 1⟩, ⟨6, 8⟩⟩
            (Vec3.smul ⟨4, 0, 0⟩ (3 / 4))).z.is_inside
          ((([⟨0, 10⟩, ⟨5, 10⟩] : List Interval).getD 0 ⟨0, 0⟩).intersection
            (([⟨0, 10⟩, ⟨5, 10⟩] : List Interval).getD 1 ⟨0, 0⟩)) = true
      then SolidMask.empty else SolidMask.all :=
  c1_two_sided_mask [⟨0, 10⟩, ⟨5, 10⟩]
    ⟨⟨⟨4, -10⟩, ⟨0, 20⟩⟩, ⟨-1, 0⟩, ⟨⟨4, 4⟩, ⟨-10, 10⟩⟩, SolidMask.empty,
      (some ⟨0⟩, some ⟨1⟩)⟩
    ⟨⟨-1, 1⟩, ⟨-1, 1⟩, ⟨6, 8⟩⟩ ⟨4, 0, 0⟩ ⟨3 / 4, ⟨-1, 0, 0⟩, SolidMask.empty⟩
    ⟨0⟩ ⟨1⟩ rfl
    (by norm_num [trace_linedef, linedefCandidates, candidatesAt,
      stepCandidate, bestFraction, Line2.intersect, Vec2.cross, Vec2.dot,
      Vec2.sub, Vec2.add, Vec2.neg, AABB2.of3, AABB2.union, AABB2.overlaps,
      AABB2.offset, AABB2.corner, Interval.union, Interval.overlaps,
      Interval.offset, Interval.is_inside, Interval.intersection,
      AABB3.offset, Vec3.smul, Vec3.neg, bboxNormal, SolidMask.all,
      SolidMask.empty])

/-- Claim C2: in `trace_aabb`, a zero move-step axis is fed straight into
the slab division. With the entity box spanning `[0, 2]` and the other box
`[2, 4]` on an axis whose move step is zero (boxes exactly touching), the
lower slab bound is `0 / 0 = NaN`, so the axis interval is `(NaN, +inf)` —
not the infinite no-constraint interval the specification requires. With the
boxes overlapping (`[-1, 4]`) the same code happens to give the infinite
interval, so the touching case is exactly the unhandled one the source's
TODO comment refers to. -/
theorem c2_zero_axis_nan :
    trace_aabb_axis ⟨0, 2⟩ ⟨2, 4⟩ 0 = ⟨EF.nan, EF.pinf⟩
    ∧ trace_aabb_axis ⟨0, 2⟩ ⟨-1, 4⟩ 0 = ⟨EF.ninf, EF.pinf⟩ := by
  constructor <;>
    norm_num [trace_aabb_axis, EF.sub, EF.div, EF.gt, EInterval.normalize]

/-- Claim C4 (counterexample): with the unit collision normal
`n = (-1, 0, 0)` as `trace` returns it (so that `v · n ≤ 0`) and velocity
`v = (200, 0, 0)`, the projected velocity's component along the normal is
`2`, which is positive — the claim's check `new_velocity · normal ≤ ε` fails
for any tolerance below `2`, and the spec's stated bound `≤ 0` fails
outright. -/
theorem c4_counterexample :
    Vec3.dot ⟨-1, 0, 0⟩ ⟨-1, 0, 0⟩ = 1
    ∧ Vec3.dot ⟨200, 0, 0⟩ ⟨-1, 0, 0⟩ ≤ 0
    ∧ Vec3.dot (projectVelocity ⟨200, 0, 0⟩ ⟨-1, 0, 0⟩) ⟨-1, 0, 0⟩ = 2
    ∧ ¬ Vec3.dot (projectVelocity ⟨200, 0, 0⟩ ⟨-1, 0, 0⟩) ⟨-1, 0, 0⟩ ≤ 0 := by
  norm_num [Vec3.dot, projectVelocity, Vec3.sub, Vec3.smul]

/-- Claim C4 (amended): for a unit collision normal `n` oriented as `trace`
returns it (against the motion, `v · n ≤ 0`), one collision-response
projection leaves a velocity whose component along the normal is exactly
`-0.01 * (v · n)`, which is nonnegative: the post-projection velocity points
away from (never into) the surface, so the same collision is not
re-triggered. -/
theorem c4_projection (v n : Vec3) (h1 : n.dot n = 1) (h2 : v.dot n ≤ 0) :
    (projectVelocity v n).dot n = -(v.dot n) * (1 / 100)
    ∧ 0 ≤ (projectVelocity v n).dot n := by
  simp only [projectVelocity, Vec3.sub, Vec3.smul, Vec3.dot] at h1 h2 ⊢
  constructor
  · linear_combination (-(101 / 100) * (v.x * n.x + v.y * n.y + v.z * n.z)) * h1
  · nlinarith [h1, h2]

/-- Witness for C4: the amended projection theorem applied at
`v = (200, 0, 0)`, `n = (-1, 0, 0)`. -/
theorem c4_projection_witness :
    Vec3.dot (projectVelocity ⟨200, 0, 0⟩ ⟨-1, 0, 0⟩) ⟨-1, 0, 0⟩ =
      -(Vec3.dot ⟨200, 0, 0⟩ ⟨-1, 0, 0⟩) * (1 / 100)
    ∧ 0 ≤ Vec3.dot (projectVelocity ⟨200, 0, 0⟩ ⟨-1, 0, 0⟩) ⟨-1, 0, 0⟩ :=
  c4_projection ⟨200, 0, 0⟩ ⟨-1, 0, 0⟩ (by norm_num [Vec3.dot])
    (by norm_num [Vec3.dot])

/-- Claim C8: a spawned thing with the spawn-on-ceiling marker is placed at
the owning sector's ceiling height minus the marker's offset and the marker
is removed during the spawn; without the marker, z is the sector's floor
height. In the reference scenario (floor 0, ceiling 128, offset 24) the
resolved z is 104. -/
theorem c8_spawn_z :
    resolveSpawnZ ⟨0, 128⟩ (some ⟨24⟩) = (104, none)
    ∧ (∀ (s : Interval) (m : SpawnOnCeiling),
        resolveSpawnZ s (some m) = (s.max - m.offset, none))
    ∧ (∀ s : Interval, resolveSpawnZ s none = (s.min, none)) := by
  refine ⟨?_, fun s m => rfl, fun s => rfl⟩
  norm_num [resolveSpawnZ]

/-- Claim C3 (counterexample): with a registry containing only doomednum 1
and the thing list `[doomednum 2, doomednum 1]`, `spawn_things` aborts on
the first thing's missing doomednum and spawns nothing — in particular the
second thing, whose doomednum is present in the registry, is not spawned,
contradicting the claim that spawning continues for subsequent things. -/
theorem c3_counterexample :
    spawn_things (fun n => n == 1) [⟨2⟩, ⟨1⟩] = ([], some 2)
    ∧ (fun n : ℕ => n == 1) 1 = true := by
  constructor <;> rfl

/-- Claim C3 (amended): a missing doomednum is fatal to the whole
`spawn_things` call: the things before the first one with a missing
doomednum are spawned in order, the error names that doomednum and is
returned to the caller, and no later thing in the list is spawned. -/
theorem c3_spawn_abort (registry : ℕ → Bool) (things : List Thing) :
    spawn_things registry things =
      ((things.takeWhile (fun t => registry t.doomednum)).map Thing.doomednum,
        (things.find? (fun t => ! registry t.doomednum)).map Thing.doomednum) := by
  induction things with
  | nil => rfl
  | cons t rest ih =>
    by_cases h : registry t.doomednum
    · simp [spawn_things, h, List.takeWhile_cons, List.find?_cons, ih]
    · simp [spawn_things, h, List.takeWhile_cons, List.find?_cons]

/-- Claim C7: while a `SwitchActive` component is present on the linedef
entity, processing another `DoorSwitchUse` use-event for that linedef is a
no-op: the handler returns the world unchanged (no door created, no texture
changed, no timer modified, no sound queued). -/
theorem c7_switch_retrigger (du : DoorSwitchUse) (tag : ℕ)
    (switches : ℕ → Option ℕ) (w : SwitchWorld)
    (h : w.switch_active.isSome = true) :
    handleSwitchUse du tag switches w = w := by
  simp [handleSwitchUse, h]

/-- Witness for C7: a concrete world with an active switch, one tagged
sector with no door yet and a switch texture available, is returned
unchanged. -/
theorem c7_switch_retrigger_witness :
    handleSwitchUse ⟨1, 2, 3⟩ 5 (fun t => some (t + 1))
      ⟨[⟨5, [1]⟩], [⟨0, 64⟩, ⟨0, 72⟩], [none, none], some ⟨7, 2⟩, 7, 0⟩ =
      ⟨[⟨5, [1]⟩], [⟨0, 64⟩, ⟨0, 72⟩], [none, none], some ⟨7, 2⟩, 7, 0⟩ :=
  c7_switch_retrigger ⟨1, 2, 3⟩ 5 (fun t => some (t + 1))
    ⟨[⟨5, [1]⟩], [⟨0, 64⟩, ⟨0, 72⟩], [none, none], some ⟨7, 2⟩, 7, 0⟩ rfl

/-- Claim C5 (counterexample): an unobstructed closing door (speed 70,
close height 0) ticked at `dt = 1/35` from ceiling height 1 is removed with
the ceiling at `-1`, not at the close height 0; and ticked from ceiling
height 2 the ceiling lands exactly on the close height 0 yet the component
is not removed (the comparison is strict). -/
theorem c5_counterexample :
    (doorTick false (1 / 35) ⟨60, 0, .Closing, 70, 5, 5⟩ 1).door = none
    ∧ (doorTick false (1 / 35) ⟨60, 0, .Closing, 70, 5, 5⟩ 1).ceiling = -1
    ∧ (doorTick false (1 / 35) ⟨60, 0, .Closing, 70, 5, 5⟩ 2).door =
        some ⟨60, 0, .Closing, 70, 5, 5⟩
    ∧ (doorTick false (1 / 35) ⟨60, 0, .Closing, 70, 5, 5⟩ 2).ceiling = 0 := by
  norm_num [doorTick]

/-- Claim C5 (amended): an unobstructed tick of a door in `Closing` state
always commits the decrement, leaving the ceiling at `c - speed * dt`
(there is no clamping to `close_height`), and the `DoorActive` component is
removed exactly when that decremented height is strictly below
`close_height` — so the ceiling at removal is strictly below `close_height`,
not equal to it. -/
theorem c5_closing_commit (d : DoorActive) (c dt : ℚ)
    (hs : d.state = DoorState.Closing) :
    (doorTick false dt d c).ceiling = c - d.speed * dt
    ∧ ((doorTick false dt d c).door = none ↔
        c - d.speed * dt < d.close_height) := by
  have harith : c + -d.speed * dt = c - d.speed * dt := by ring
  simp only [doorTick, hs, Bool.false_eq_true, if_false, harith]
  constructor
  · split <;> rfl
  · split
    case isTrue h => simp [h]
    case isFalse h => simp [h]

/-- Witness for C5: the amended closing-tick theorem applied to the concrete
door of the counterexample at ceiling height 1. -/
theorem c5_closing_commit_witness :
    (doorTick false (1 / 35) ⟨60, 0, .Closing, 70, 5, 5⟩ 1).ceiling =
      ((1 : ℚ) - 70 * (1 / 35))
    ∧ ((doorTick false (1 / 35) ⟨60, 0, .Closing, 70, 5, 5⟩ 1).door = none ↔
        ((1 : ℚ) - 70 * (1 / 35) < 0)) :=
  c5_closing_commit ⟨60, 0, .Closing, 70, 5, 5⟩ 1 (1 / 35) rfl

/-- Claim C6 (counterexample): with neighbour ceilings {64, 96, 80} a door
use creates the instance with `open_height = 60` and `close_height = 0` as
claimed, but after 30 `Opening` ticks at 2.0 units/tick from height 0 the
ceiling is exactly 60 and the state is still `Opening`, not `Open`: the
clamp comparison is strict, so the transition needs one more tick. -/
theorem c6_counterexample :
    doorUseCreate ⟨2, 105⟩ [64, 96, 80] 0 =
      some ⟨60, 0, .Closed, 2, 105, 105⟩
    ∧ doorTicks false 1 30 (some (⟨60, 0, .Opening, 2, 105, 105⟩, 0)) =
        some (⟨60, 0, .Opening, 2, 105, 105⟩, 60) := by
  constructor
  · norm_num [doorUseCreate, listMin]
  · norm_num [doorTicks, doorTick, checkedSub]

/-- Claim C6 (amended): a door use on a sector with at least one neighbour
creates the instance with `open_height` the minimum neighbour ceiling minus
4 and `close_height` the sector's own floor; in the reference scenario
(neighbour ceilings {64, 96, 80}, so `open_height = 60`), opening at 2.0
units/tick from height 0 clamps the ceiling at exactly 60.0 and reaches the
`Open` state after 31 ticks — the ceiling equals 60 after 30 ticks, but the
strict comparison delays the state change by one tick. -/
theorem c6_door_use (du : DoorUse) (neigh : List ℚ) (fl m : ℚ)
    (hm : listMin neigh = some m) :
    doorUseCreate du neigh fl =
      some ⟨m - 4, fl, .Closed, du.speed, du.wait_time, du.wait_time⟩
    ∧ doorTicks false 1 31 (some (⟨60, 0, .Opening, 2, 105, 105⟩, 0)) =
        some (⟨60, 0, .Open, 2, 105, 105⟩, 60) := by
  constructor
  · simp [doorUseCreate, hm]
  · norm_num [doorTicks, doorTick, checkedSub]

/-- Witness for C6: the amended door-use theorem applied to the reference
scenario (neighbour ceilings {64, 96, 80}, floor 0, speed 2, wait 105). -/
theorem c6_door_use_witness :
    doorUseCreate ⟨2, 105⟩ [64, 96, 80] 0 =
      some ⟨64 - 4, 0, .Closed, 2, 105, 105⟩
    ∧ doorTicks false 1 31 (some (⟨60, 0, .Opening, 2, 105, 105⟩, 0)) =
        some (⟨60, 0, .Open, 2, 105, 105⟩, 60) :=
  c6_door_use ⟨2, 105⟩ [64, 96, 80] 0 64 (by norm_num [listMin])

/-- Claim C9: processing two `DoorUse` events that target the same
(initially door-less) sector within a single tick reaches the
`DoorState::Closed => unreachable!()` arm and panics: the first event
inserts a `DoorActive` in state `Closed`, and the second observes it before
the per-tick transition pass has advanced it to `Opening`. A single event
is fine and leaves the freshly created door in state `Closed`. -/
theorem c9_double_use_panic :
    processDoorUses ⟨2, 105⟩ [64] 0 2 none = none
    ∧ processDoorUses ⟨2, 105⟩ [64] 0 1 none =
        some (some ⟨60, 0, .Closed, 2, 105, 105⟩) := by
  constructor <;> norm_num [processDoorUses, handleDoorUse, doorUseCreate, listMin]

/-- Claim C10: the physics tick advances the position only on an iteration
whose trace finds no intersection; when every trace call returns an
intersection, all (up to 4) iterations only deflect the velocity and the
entity's position is unchanged at the end of the tick. -/
theorem c10_blocked_no_motion (tracer : Vec3 → Vec3 → Option Intersect)
    (dt : ℚ) (pos vel : Vec3)
    (h : ∀ p m, (tracer p m).isSome = true) :
    (physicsTick tracer dt pos vel).1 = pos := by
  have key : ∀ (n : ℕ) (v0 p v : Vec3),
      (physicsLoop tracer dt v0 n p v).1 = p := by
    intro n
    induction n with
    | zero => intro v0 p v; rfl
    | succ k ih =>
      intro v0 p v
      obtain ⟨i, hi⟩ := Option.isSome_iff_exists.mp (h p (v.smul dt))
      simp only [physicsLoop, hi]
      split
      · rfl
      · exact ih v0 p _
  unfold physicsTick
  split
  · rfl
  · exact key 4 vel pos vel

/-- Witness for C10: with a tracer that always reports an intersection, the
position is unchanged after the tick. -/
theorem c10_blocked_no_motion_witness :
    (physicsTick (fun _ _ => some ⟨0, ⟨1, 0, 0⟩, SolidMask.all⟩) 1
      ⟨1, 2, 3⟩ ⟨5, 0, 0⟩).1 = ⟨1, 2, 3⟩ :=
  c10_blocked_no_motion (fun _ _ => some ⟨0, ⟨1, 0, 0⟩, SolidMask.all⟩) 1
    ⟨1, 2, 3⟩ ⟨5, 0, 0⟩ (fun _ _ => rfl)

end Ferret

